import Mathlib

/-!
Verification of the access-control core of the repo-back document repository.

The definitions below shallowly embed the JavaScript access-control code:

* routes/research.js       — canView, isOwnerStaffOrAdviser, the file
                             streamer GET /research/file/:id and the signed
                             mint GET /research/file/:id/signed;
* routes/repositoryRoutes.js — buildAllowedFilter (the Mongo predicate used
                             by list/search), the inline visibility check of
                             GET /repository/:id and
                             GET /repository/file/:id/signed;
* middleware/authMiddleware.js — authorizeOrSig, the bearer-or-capability
                             resolver, and isMsuiitG.

JavaScript strings are Lean Strings; missing/null/empty string fields are
modelled as the empty string (all are falsy in the JS code); timestamps are
Int; a nullable date is Option Int.  Fallible lookups are Option.
-/

namespace RepoBack

/-- The institutional e-mail domain constant MSUIIT_DOMAIN of
routes/research.js. -/
def MSUIIT_DOMAIN : String := "@g.msuiit.edu.ph"

/-- JavaScript String.prototype.toLowerCase, modelled characterwise. -/
def lowerStr (s : String) : String := String.mk (s.data.map Char.toLower)

/-- Whitespace test used by the trim model. -/
def isWs (c : Char) : Bool := c.isWhitespace

/-- JavaScript String.prototype.trim: drop whitespace from both ends. -/
def trimStr (s : String) : String :=
  String.mk (((s.data.dropWhile isWs).reverse.dropWhile isWs).reverse)

/-- End-anchored suffix test (the regex dollar anchor), on character lists. -/
def strEndsWith (s suffix : String) : Bool :=
  decide (s.data.reverse.take suffix.data.length = suffix.data.reverse)

/-- A research document as read from Mongo (models/Research plus the fields
the access-control code reads).  visibility is the raw stored string, with
"" standing for a missing/empty value; embargoUntil is a nullable timestamp. -/
structure ResearchDoc where
  id : String
  status : String
  visibility : String
  embargoUntil : Option Int
  allowedViewers : List String
  student : String
  author : String
  adviser : String
  uploadedBy : String
  filePath : String
  deriving DecidableEq

/-- The request principal (req.user) as produced by the auth middleware:
lowercased email plus id, role and the isCampus flag. -/
structure User where
  id : String
  email : String
  role : String
  isCampus : Bool
  deriving DecidableEq

/-- sameEmail of routes/research.js: trim then lowercase both sides and
compare. -/
def sameEmail (a b : String) : Bool :=
  decide (lowerStr (trimStr a) = lowerStr (trimStr b))

/-- Helper for userDomain: the suffix of a character list starting at its
last occurrence of the at-sign, inclusive (none when no at-sign occurs). -/
def lastAtSuffix : List Char → Option (List Char)
  | [] => none
  | c :: cs =>
    match lastAtSuffix cs with
    | some d => some d
    | none => if c = '@' then some (c :: cs) else none

/-- userDomain of routes/research.js: lowercase the email and return the
slice from the last at-sign (inclusive) to the end, or "" if there is none. -/
def userDomain (email : String) : String :=
  match lastAtSuffix (lowerStr email).data with
  | some d => String.mk d
  | none => ""

/-- isOwnerStaffOrAdviser of routes/research.js: the principal's lowered
email equals the document's lowered student or author, or the principal's id
equals uploadedBy, or the lowered role is staff/admin, or the email is
nonempty and sameEmail-matches the adviser. -/
def isOwnerStaffOrAdviser (r : ResearchDoc) (u : User) : Bool :=
  let email := lowerStr u.email
  let role := lowerStr u.role
  (decide (email = lowerStr r.student) || decide (email = lowerStr r.author))
    || decide (r.uploadedBy = u.id)
    || (decide (role = "staff") || decide (role = "admin"))
    || (decide (email ≠ "") && sameEmail email r.adviser)

/-- canView of routes/research.js, the centralized visibility gate, with the
current time passed explicitly.  Precedence: ownership/staff, then the
visibility class (falling back to "campus" for a missing value and
lowercasing it), with embargo a time lock in front of a domain check,
public open, campus a domain check, private an allow-list membership after
lowercasing both sides, and any unknown class treated like campus. -/
def canView (r : ResearchDoc) (u : User) (now : Int) : Bool :=
  if isOwnerStaffOrAdviser r u then true
  else
    let viewerEmail := lowerStr u.email
    let viewerDomain := userDomain viewerEmail
    let vis := lowerStr (if r.visibility = "" then "campus" else r.visibility)
    if vis = "embargo" then
      match r.embargoUntil with
      | some t =>
        if now < t then false else decide (viewerDomain = MSUIIT_DOMAIN)
      | none => decide (viewerDomain = MSUIIT_DOMAIN)
    else if vis = "public" then true
    else if vis = "campus" then decide (viewerDomain = MSUIIT_DOMAIN)
    else if vis = "private" then
      decide (viewerEmail ∈ r.allowedViewers.map lowerStr)
    else decide (viewerDomain = MSUIIT_DOMAIN)

/-- The set of documents admitted by the Mongo filter built by
buildAllowedFilter of routes/repositoryRoutes.js: status approved and
(visibility exactly "public", or exactly "embargo" with a non-null
embargoUntil at or before now, or exactly "private" with the lowered user
email a member of allowedViewers as stored, or — only when user.isCampus —
visibility exactly "campus").  Mongo string equality is exact and
case-sensitive, and equality against an array field is membership. -/
def filterAdmits (u : User) (now : Int) (r : ResearchDoc) : Bool :=
  decide (r.status = "approved") &&
    (decide (r.visibility = "public")
      || (decide (r.visibility = "embargo") &&
            (match r.embargoUntil with
             | some t => decide (t ≤ now)
             | none => false))
      || (decide (r.visibility = "private")
            && decide (lowerStr u.email ∈ r.allowedViewers))
      || (u.isCampus && decide (r.visibility = "campus")))

/-- The inline allowed expression shared by GET /repository/:id and
GET /repository/file/:id/signed of routes/repositoryRoutes.js: visibility
exactly "public", or exactly "embargo" with a non-null embargoUntil at or
before now, or exactly "campus" and user.isCampus, or exactly "private"
with the lowered user email in the lowercased allowedViewers. -/
def repositoryAllowed (r : ResearchDoc) (u : User) (now : Int) : Bool :=
  decide (r.visibility = "public")
    || (decide (r.visibility = "embargo") &&
          (match r.embargoUntil with
           | some t => decide (t ≤ now)
           | none => false))
    || (decide (r.visibility = "campus") && u.isCampus)
    || (decide (r.visibility = "private")
          && decide (lowerStr u.email ∈ r.allowedViewers.map lowerStr))

/-- Outcome of the file streamer GET /research/file/:id: a 404 with a given
body, a 403 with a given body, or a successful byte stream. -/
inductive StreamResult where
  | notFound (body : String)
  | forbidden (body : String)
  | stream
  deriving DecidableEq

/-- The authentication context reaching the streamer from authorizeOrSig:
either a bearer-resolved user, or a signed-link user carrying the fileId the
capability was bound to (req.user._signedUrl with req.user._sig.fileId). -/
inductive AuthCtx where
  | bearer (u : User)
  | signed (u : User) (fileId : String)
  deriving DecidableEq

/-- The decision logic of GET /research/file/:id of routes/research.js.
find is the database lookup result, reqId the requested document id,
bytesOnDisk whether the resolved path exists on disk.  Order as in the code:
missing document, missing filePath or non-approved status give 404 "File not
found"; then the signed-link fileId binding (mismatch gives 403) or a fresh
canView evaluation (deny gives 403); then a missing file on disk gives 404
"File not found on disk"; otherwise the bytes are streamed. -/
def researchFileGet (find : Option ResearchDoc) (reqId : String)
    (ctx : AuthCtx) (now : Int) (bytesOnDisk : Bool) : StreamResult :=
  match find with
  | none => .notFound "File not found"
  | some r =>
    if r.filePath = "" ∨ r.status ≠ "approved" then .notFound "File not found"
    else
      match ctx with
      | .signed _ fid =>
        if fid ≠ reqId then .forbidden "Signed link does not match file"
        else if bytesOnDisk then .stream
        else .notFound "File not found on disk"
      | .bearer u =>
        if canView r u now then
          if bytesOnDisk then .stream
          else .notFound "File not found on disk"
        else .forbidden "Not authorized to view this file"

/-- Outcome of a signed-link mint endpoint: 404, 403, or a minted capability
bound to a subject and a fileId. -/
inductive MintResult where
  | notFound
  | forbidden
  | minted (sub : String) (fileId : String)
  deriving DecidableEq

/-- The decision logic of GET /research/file/:id/signed of routes/research.js:
404 when the document is absent or not approved, 403 when canView denies,
otherwise a capability bound to the requesting user's id and the document id. -/
def researchSignedGet (find : Option ResearchDoc) (u : User) (now : Int) :
    MintResult :=
  match find with
  | none => .notFound
  | some r =>
    if r.status ≠ "approved" then .notFound
    else if canView r u now then .minted u.id r.id
    else .forbidden

/-- The decision logic of GET /repository/file/:id/signed of
routes/repositoryRoutes.js: 404 when the document is absent or not approved,
403 when the inline visibility check denies, otherwise a capability bound to
the requesting user's id and the document id. -/
def repositorySignedGet (find : Option ResearchDoc) (u : User) (now : Int) :
    MintResult :=
  match find with
  | none => .notFound
  | some r =>
    if r.status ≠ "approved" then .notFound
    else if repositoryAllowed r u now then .minted u.id r.id
    else .forbidden

/-- Outcome of the single-item detail endpoint GET /repository/:id. -/
inductive DetailResult where
  | notFound
  | forbidden
  | ok
  deriving DecidableEq

/-- The field projection applied by the .select of GET /repository/:id of
routes/repositoryRoutes.js: the selected list (title, author, ...,
visibility, embargoUntil, allowedViewers) does not include status, so on the
lean query result the status field is undefined — modelled by "" — while the
three access-control fields the endpoint reads are kept. -/
def repositoryDetailProjection (r : ResearchDoc) : ResearchDoc :=
  { r with status := "" }

/-- The decision logic of GET /repository/:id of routes/repositoryRoutes.js:
the looked-up document passes through the .select projection, which omits
status; then 404 when the document is absent or its projected status is not
"approved" — which, status being projected out, holds for every document —
else the inline visibility check decides 403 versus the sanitized document.
The 403 and success branches are consequently unreachable in the source. -/
def repositoryDetailGet (find : Option ResearchDoc) (u : User) (now : Int) :
    DetailResult :=
  match find with
  | none => .notFound
  | some r0 =>
    let r := repositoryDetailProjection r0
    if r.status ≠ "approved" then .notFound
    else if repositoryAllowed r u now then .ok
    else .forbidden

/-- isMsuiitG of middleware/authMiddleware.js: case-insensitive end-anchored
match of the institutional domain. -/
def isMsuiitG (email : String) : Bool :=
  strEndsWith (lowerStr email) MSUIIT_DOMAIN

/-- The claims of a bearer token after a successful jwt.verify; "" models a
missing (falsy) claim. -/
structure BearerClaims where
  id : String
  email : String
  role : String
  deriving DecidableEq

/-- The payload of a signed-link capability after a successful jwt.verify;
"" models a missing (falsy) claim. -/
structure SigClaims where
  sub : String
  fileId : String
  email : String
  role : String
  isCampus : Bool
  deriving DecidableEq

/-- The req.user object installed by authorizeOrSig: the resolved identity
plus the signedUrl provenance flag and, for capabilities, the bound fileId. -/
structure ReqUser where
  id : String
  email : String
  role : String
  isCampus : Bool
  signedUrl : Bool
  sigFileId : String
  deriving DecidableEq

/-- Outcome of the authorizeOrSig middleware: an HTTP error status with a
body, or the request proceeding with a resolved req.user. -/
inductive AuthResult where
  | status (code : Nat) (msg : String)
  | proceed (u : ReqUser)
  deriving DecidableEq

/-- The signed-link half of authorizeOrSig of middleware/authMiddleware.js:
missing sig gives 401, failed verification gives 401, a payload missing
fileId or sub gives 400, otherwise the request proceeds as the capability's
subject with the signedUrl flag set and the bound fileId recorded. -/
def sigPathResolve (sigParam : Option String)
    (verifySig : String → Option SigClaims) : AuthResult :=
  match sigParam with
  | none => .status 401 "Missing or invalid token"
  | some s =>
    match verifySig s with
    | none => .status 401 "Invalid or expired signed link"
    | some p =>
      if p.fileId = "" ∨ p.sub = "" then .status 400 "Malformed signed link"
      else .proceed
        { id := p.sub, email := lowerStr p.email, role := p.role,
          isCampus := p.isCampus, signedUrl := true, sigFileId := p.fileId }

/-- authorizeOrSig of middleware/authMiddleware.js.  hdrBearer is the token
from an Authorization Bearer header (none when absent), verifyBearer and
verifySig model jwt.verify under the two secrets (none meaning the
verification throws: expired, malformed, or wrong signature).  A present
bearer that verifies but lacks id, email or role gives 400; a bearer whose
verification throws falls through silently to the signed-link path. -/
def authorizeOrSig (hdrBearer : Option String)
    (verifyBearer : String → Option BearerClaims)
    (sigParam : Option String)
    (verifySig : String → Option SigClaims) : AuthResult :=
  match hdrBearer with
  | some t =>
    (match verifyBearer t with
     | none => sigPathResolve sigParam verifySig
     | some d =>
       if d.id = "" ∨ d.email = "" ∨ d.role = "" then
         .status 400 "Malformed token"
       else .proceed
         { id := d.id, email := lowerStr d.email, role := d.role,
           isCampus := isMsuiitG d.email, signedUrl := false, sigFileId := "" })
  | none => sigPathResolve sigParam verifySig

/-! Concrete documents and principals used by witnesses and counterexamples. -/

/-- Sample: approved embargo document whose embargo lifts at time 100. -/
def docEmb : ResearchDoc :=
  { id := "demb", status := "approved", visibility := "embargo",
    embargoUntil := some 100, allowedViewers := [],
    student := "stu@g.msuiit.edu.ph", author := "auth@g.msuiit.edu.ph",
    adviser := "", uploadedBy := "u1", filePath := "/uploads/research/a.pdf" }

/-- Sample: approved public document. -/
def docPub : ResearchDoc :=
  { id := "dpub", status := "approved", visibility := "public",
    embargoUntil := none, allowedViewers := [],
    student := "", author := "ana@g.msuiit.edu.ph",
    adviser := "", uploadedBy := "u1", filePath := "/uploads/research/b.pdf" }

/-- Sample: approved campus document. -/
def docCampus : ResearchDoc :=
  { id := "dcam", status := "approved", visibility := "campus",
    embargoUntil := none, allowedViewers := [],
    student := "", author := "ana@g.msuiit.edu.ph",
    adviser := "", uploadedBy := "u1", filePath := "/uploads/research/c.pdf" }

/-- Sample: approved private document with an empty allow-list. -/
def docPriv : ResearchDoc :=
  { id := "dprv", status := "approved", visibility := "private",
    embargoUntil := none, allowedViewers := [],
    student := "", author := "ana@g.msuiit.edu.ph",
    adviser := "", uploadedBy := "u1", filePath := "/uploads/research/d.pdf" }

/-- Sample: approved private document with a mixed-case allow-list entry. -/
def docPrivMixed : ResearchDoc :=
  { id := "dprm", status := "approved", visibility := "private",
    embargoUntil := none, allowedViewers := ["Alice@G.MSUIIT.EDU.PH"],
    student := "", author := "ana@g.msuiit.edu.ph",
    adviser := "", uploadedBy := "u1", filePath := "/uploads/research/e.pdf" }

/-- Sample: approved document with an unknown visibility value. -/
def docUnk : ResearchDoc :=
  { id := "dunk", status := "approved", visibility := "internal",
    embargoUntil := none, allowedViewers := [],
    student := "", author := "ana@g.msuiit.edu.ph",
    adviser := "", uploadedBy := "u1", filePath := "/uploads/research/f.pdf" }

/-- Sample: pending (non-approved) public document. -/
def docPending : ResearchDoc :=
  { id := "dpen", status := "pending", visibility := "public",
    embargoUntil := none, allowedViewers := [],
    student := "", author := "ana@g.msuiit.edu.ph",
    adviser := "", uploadedBy := "u1", filePath := "/uploads/research/g.pdf" }

/-- Sample: external-domain non-owner student principal. -/
def uExt : User :=
  { id := "u9", email := "eve@gmail.com", role := "student", isCampus := false }

/-- Sample: staff principal on the institutional domain, not an owner of the
sample documents. -/
def uStaff : User :=
  { id := "u7", email := "staff@g.msuiit.edu.ph", role := "staff",
    isCampus := true }

/-- Sample: campus-affiliated non-owner student principal. -/
def uCampus : User :=
  { id := "u8", email := "juan@g.msuiit.edu.ph", role := "student",
    isCampus := true }

/-- Sample: mixed-case identity on the institutional domain, matching the
docPrivMixed allow-list entry case-insensitively. -/
def uAlice : User :=
  { id := "u5", email := "Alice@g.msuiit.edu.ph", role := "student",
    isCampus := true }

/-- Sample: principal whose identity matches the docEmb author only up to
case. -/
def uOwner : User :=
  { id := "u4", email := "AUTH@g.msuiit.edu.ph", role := "student",
    isCampus := true }

/-- Sample: signed-link payload used for the resolver witness. -/
def pSig : SigClaims :=
  { sub := "u5", fileId := "demb", email := "Alice@g.msuiit.edu.ph",
    role := "student", isCampus := true }

/-! Literal computations used to discharge visibility-class case splits. -/

theorem lowerStr_embargo : lowerStr "embargo" = "embargo" := by decide

theorem lowerStr_public : lowerStr "public" = "public" := by decide

theorem lowerStr_campus : lowerStr "campus" = "campus" := by decide

theorem lowerStr_private : lowerStr "private" = "private" := by decide

/-! Branch lemmas for canView, filterAdmits and repositoryAllowed. -/

theorem canView_of_owner (r : ResearchDoc) (u : User) (now : Int)
    (h : isOwnerStaffOrAdviser r u = true) : canView r u now = true := by
  simp [canView, h]

theorem canView_embargo_some (r : ResearchDoc) (u : User) (now t : Int)
    (hown : isOwnerStaffOrAdviser r u = false)
    (hvis : r.visibility = "embargo") (he : r.embargoUntil = some t) :
    canView r u now =
      if now < t then false
      else decide (userDomain (lowerStr u.email) = MSUIIT_DOMAIN) := by
  simp [canView, hown, hvis, he, lowerStr_embargo]

theorem canView_public (r : ResearchDoc) (u : User) (now : Int)
    (hown : isOwnerStaffOrAdviser r u = false)
    (hvis : r.visibility = "public") :
    canView r u now = true := by
  simp [canView, hown, hvis, lowerStr_public]

theorem canView_campus (r : ResearchDoc) (u : User) (now : Int)
    (hown : isOwnerStaffOrAdviser r u = false)
    (hvis : r.visibility = "campus") :
    canView r u now = decide (userDomain (lowerStr u.email) = MSUIIT_DOMAIN) := by
  simp [canView, hown, hvis, lowerStr_campus]

theorem canView_private (r : ResearchDoc) (u : User) (now : Int)
    (hown : isOwnerStaffOrAdviser r u = false)
    (hvis : r.visibility = "private") :
    canView r u now =
      decide (lowerStr u.email ∈ r.allowedViewers.map lowerStr) := by
  simp [canView, hown, hvis, lowerStr_private]

theorem canView_missing_vis (r : ResearchDoc) (u : User) (now : Int)
    (hown : isOwnerStaffOrAdviser r u = false)
    (hvis : r.visibility = "") :
    canView r u now = decide (userDomain (lowerStr u.email) = MSUIIT_DOMAIN) := by
  simp [canView, hown, hvis, lowerStr_campus]

theorem canView_unknown_vis (r : ResearchDoc) (u : User) (now : Int)
    (hown : isOwnerStaffOrAdviser r u = false)
    (h0 : r.visibility ≠ "")
    (h1 : lowerStr r.visibility ≠ "embargo")
    (h2 : lowerStr r.visibility ≠ "public")
    (h3 : lowerStr r.visibility ≠ "campus")
    (h4 : lowerStr r.visibility ≠ "private") :
    canView r u now = decide (userDomain (lowerStr u.email) = MSUIIT_DOMAIN) := by
  simp [canView, hown, h0, h1, h2, h3, h4]

theorem filterAdmits_embargo (u : User) (now t : Int) (r : ResearchDoc)
    (hst : r.status = "approved")
    (hvis : r.visibility = "embargo") (he : r.embargoUntil = some t) :
    filterAdmits u now r = decide (t ≤ now) := by
  simp [filterAdmits, hst, hvis, he]

theorem repositoryAllowed_embargo (r : ResearchDoc) (u : User) (now t : Int)
    (hvis : r.visibility = "embargo") (he : r.embargoUntil = some t) :
    repositoryAllowed r u now = decide (t ≤ now) := by
  simp [repositoryAllowed, hvis, he]

theorem filterAdmits_unknown (u : User) (now : Int) (r : ResearchDoc)
    (h1 : r.visibility ≠ "public") (h2 : r.visibility ≠ "embargo")
    (h3 : r.visibility ≠ "private") (h4 : r.visibility ≠ "campus") :
    filterAdmits u now r = false := by
  simp [filterAdmits, h1, h2, h3, h4]

theorem repositoryAllowed_unknown (r : ResearchDoc) (u : User) (now : Int)
    (h1 : r.visibility ≠ "public") (h2 : r.visibility ≠ "embargo")
    (h3 : r.visibility ≠ "private") (h4 : r.visibility ≠ "campus") :
    repositoryAllowed r u now = false := by
  simp [repositoryAllowed, h1, h2, h3, h4]

theorem ne_of_lowerStr_ne {s : String} {t : String}
    (hl : lowerStr s = lowerStr t → False) : s ≠ t := by
  intro h
  exact hl (by rw [h])

/-! Claim C1 -/

/-- C1 counterexample: an approved embargo document whose embargo lifted at
time 100, requested at time 200 by an external-domain, non-owner, non-staff
principal, is admitted by the repository list predicate and by the repository
single-item/signed-link check, although canView denies it — so the claimed
"Deny when the time is at or after embargoUntil but the principal is not
domain-affiliated" fails on the repository evaluation paths. -/
theorem C1_counterexample :
    isOwnerStaffOrAdviser docEmb uExt = false
    ∧ userDomain (lowerStr uExt.email) ≠ MSUIIT_DOMAIN
    ∧ docEmb.visibility = "embargo"
    ∧ docEmb.embargoUntil = some 100
    ∧ docEmb.status = "approved"
    ∧ filterAdmits uExt 200 docEmb = true
    ∧ repositoryAllowed docEmb uExt 200 = true
    ∧ canView docEmb uExt 200 = false := by decide

/-- C1 (amended): for an embargo document with embargoUntil set, the canView
path denies every non-owner non-staff principal strictly before embargoUntil
and, at or after it, allows exactly the domain-affiliated principals; the
repository list predicate and the repository single-item/signed-link check
instead decide purely by time — for an approved embargo document they admit
any principal once embargoUntil has passed, affiliated or not. -/
theorem C1_embargo_per_path (r : ResearchDoc) (u : User) (now t : Int)
    (hvis : r.visibility = "embargo") (he : r.embargoUntil = some t) :
    (isOwnerStaffOrAdviser r u = false →
      ((now < t → canView r u now = false)
        ∧ (t ≤ now →
            canView r u now
              = decide (userDomain (lowerStr u.email) = MSUIIT_DOMAIN))))
    ∧ (r.status = "approved" → filterAdmits u now r = decide (t ≤ now))
    ∧ repositoryAllowed r u now = decide (t ≤ now) := by
  refine ⟨fun hown => ⟨fun hlt => ?_, fun hle => ?_⟩,
    fun hst => filterAdmits_embargo u now t r hst hvis he,
    repositoryAllowed_embargo r u now t hvis he⟩
  · rw [canView_embargo_some r u now t hown hvis he, if_pos hlt]
  · rw [canView_embargo_some r u now t hown hvis he, if_neg (not_lt.mpr hle)]

/-- C1 witness: the per-path embargo behaviour instantiated on the sample
embargo document at times 50 (before) and 200 (after). -/
theorem C1_embargo_per_path_witness :
    docEmb.visibility = "embargo"
    ∧ docEmb.embargoUntil = some 100
    ∧ isOwnerStaffOrAdviser docEmb uExt = false
    ∧ canView docEmb uExt 50 = false
    ∧ repositoryAllowed docEmb uExt 200 = decide ((100 : Int) ≤ 200) := by
  refine ⟨rfl, rfl, by decide, ?_,
    (C1_embargo_per_path docEmb uExt 200 100 rfl rfl).2.2⟩
  exact ((C1_embargo_per_path docEmb uExt 50 100 rfl rfl).1 (by decide)).1
    (by decide)

/-! Claim C2 -/

/-- C2 counterexample: for the approved embargo document with its embargo
lifted, the retrieval predicate admits the external principal while canView
denies — the predicate does not coincide with the evaluator on the
non-ownership branches. -/
theorem C2_counterexample :
    docEmb.status = "approved"
    ∧ isOwnerStaffOrAdviser docEmb uExt = false
    ∧ filterAdmits uExt 300 docEmb = true
    ∧ canView docEmb uExt 300 = false := by decide

/-- C2 (amended): the retrieval predicate coincides with canView on the
non-ownership branches only for documents whose stored visibility is exactly
"public" or "campus", or exactly "private" with an already-lowercased
allow-list, for principals whose isCampus flag agrees with the domain test
canView performs; it diverges on embargo documents (the predicate omits the
domain-affiliation requirement), on unknown or missing visibility (the
predicate admits nothing, canView applies the campus rule), and on
non-lowercase stored values. -/
theorem C2_filter_refines_canView (r : ResearchDoc) (u : User) (now : Int)
    (hown : isOwnerStaffOrAdviser r u = false)
    (hst : r.status = "approved")
    (hcamp : u.isCampus = decide (userDomain (lowerStr u.email) = MSUIIT_DOMAIN))
    (hvis : r.visibility = "public" ∨ r.visibility = "campus"
      ∨ (r.visibility = "private" ∧ ∀ e ∈ r.allowedViewers, lowerStr e = e)) :
    filterAdmits u now r = canView r u now := by
  rcases hvis with h | h | ⟨h, hl⟩
  · rw [canView_public r u now hown h]
    simp [filterAdmits, hst, h]
  · rw [canView_campus r u now hown h]
    simp [filterAdmits, hst, h, hcamp]
  · rw [canView_private r u now hown h]
    have hmap : r.allowedViewers.map lowerStr = r.allowedViewers := by
      rw [List.map_congr_left hl]
      exact List.map_id r.allowedViewers
    simp [filterAdmits, hst, h, hmap]

/-- C2 witness: the predicate and canView agree on the sample campus document
for the campus-affiliated non-owner principal. -/
theorem C2_filter_refines_canView_witness :
    isOwnerStaffOrAdviser docCampus uCampus = false
    ∧ docCampus.status = "approved"
    ∧ uCampus.isCampus
        = decide (userDomain (lowerStr uCampus.email) = MSUIIT_DOMAIN)
    ∧ filterAdmits uCampus 0 docCampus = canView docCampus uCampus 0 := by
  exact ⟨by decide, rfl, by decide,
    C2_filter_refines_canView docCampus uCampus 0 (by decide) rfl (by decide)
      (Or.inr (Or.inl rfl))⟩

/-! Claim C3 -/

/-- Staff and admin roles satisfy the ownership/staff gate of canView. -/
theorem owner_of_staff (r : ResearchDoc) (u : User)
    (hrole : lowerStr u.role = "staff" ∨ lowerStr u.role = "admin") :
    isOwnerStaffOrAdviser r u = true := by
  rcases hrole with h | h <;> simp [isOwnerStaffOrAdviser, h]

/-- C3 counterexample: a staff principal who is not on the allow-list of an
approved private document is allowed by canView (file streaming and the
research signed mint) but rejected with 403 by the repository signed-link
endpoint, whose inline check has no staff override, and answered 404 by the
repository single-item detail endpoint, whose projection drops status — so
not every single-document access decision is Allow for staff. -/
theorem C3_counterexample :
    lowerStr uStaff.role = "staff"
    ∧ docPriv.status = "approved"
    ∧ canView docPriv uStaff 0 = true
    ∧ repositorySignedGet (some docPriv) uStaff 0 = .forbidden
    ∧ repositoryDetailGet (some docPriv) uStaff 0 = .notFound := by decide

/-- C3 (amended): on the canView paths a staff or admin principal is allowed
on every approved document regardless of visibility, affiliation or time —
canView returns true, the research signed mint issues a capability, and the
file streamer streams when the bytes exist; the repository signed-link
decision, however, ignores the principal's role entirely (it is invariant
under changing it), so staff get no override there; and the repository
single-item detail endpoint answers 404 for every document, staff included,
because its field projection omits status and the approved check always
fails. -/
theorem C3_staff_admin_paths (r : ResearchDoc) (u : User) (now : Int)
    (reqId : String) (role2 : String)
    (hrole : lowerStr u.role = "staff" ∨ lowerStr u.role = "admin")
    (hst : r.status = "approved") :
    canView r u now = true
    ∧ researchSignedGet (some r) u now = .minted u.id r.id
    ∧ (r.filePath ≠ "" →
        researchFileGet (some r) reqId (.bearer u) now true = .stream)
    ∧ repositoryDetailGet (some r) u now = .notFound
    ∧ repositorySignedGet (some r) u now
        = repositorySignedGet (some r) { u with role := role2 } now := by
  have hcv : canView r u now = true :=
    canView_of_owner r u now (owner_of_staff r u hrole)
  refine ⟨hcv, ?_, fun hfp => ?_, ?_, rfl⟩
  · simp [researchSignedGet, hst, hcv]
  · simp [researchFileGet, hst, hfp, hcv]
  · simp [repositoryDetailGet, repositoryDetailProjection]

/-- C3 witness: the staff behaviour instantiated on the sample private
document for the sample staff principal. -/
theorem C3_staff_admin_paths_witness :
    lowerStr uStaff.role = "staff"
    ∧ docPriv.status = "approved"
    ∧ docPriv.filePath ≠ ""
    ∧ researchFileGet (some docPriv) "dprv" (.bearer uStaff) 0 true
        = .stream := by
  refine ⟨by decide, rfl, by decide, ?_⟩
  exact (C3_staff_admin_paths docPriv uStaff 0 "dprv" "x"
    (Or.inl (by decide)) rfl).2.2.1 (by decide)

/-! Claim C4 -/

/-- C4: for every document whose status is not approved, the file streamer
answers 404 before any authorization or streaming step, and both signed-link
mint endpoints answer 404 without minting, for every principal, every
authentication context, every time and every disk state. -/
theorem C4_nonapproved_denied (r : ResearchDoc) (reqId : String)
    (ctx : AuthCtx) (u : User) (now : Int) (bytes : Bool)
    (h : r.status ≠ "approved") :
    researchFileGet (some r) reqId ctx now bytes = .notFound "File not found"
    ∧ researchSignedGet (some r) u now = .notFound
    ∧ repositorySignedGet (some r) u now = .notFound := by
  refine ⟨?_, ?_, ?_⟩
  · simp [researchFileGet, h]
  · simp [researchSignedGet, h]
  · simp [repositorySignedGet, h]

/-- C4 witness: the pending sample document is rejected with 404 on all
three byte or capability paths. -/
theorem C4_nonapproved_denied_witness :
    docPending.status ≠ "approved"
    ∧ researchFileGet (some docPending) "dpen" (.bearer uStaff) 0 true
        = .notFound "File not found"
    ∧ researchSignedGet (some docPending) uStaff 0 = .notFound
    ∧ repositorySignedGet (some docPending) uStaff 0 = .notFound := by
  have h := C4_nonapproved_denied docPending "dpen" (.bearer uStaff) uStaff 0
    true (by decide)
  exact ⟨by decide, h.1, h.2.1, h.2.2⟩

/-! Claim C5 -/

/-- C5 counterexample: an approved document with the unknown visibility value
"internal" is allowed by canView for a campus-affiliated non-owner (the
campus rule), but the repository list predicate admits it for nobody, the
repository signed-link endpoint answers 403 even to that affiliated
principal, and the repository single-item endpoint answers 404 — the claimed
campus-rule fallback does not hold on every path. -/
theorem C5_counterexample :
    docUnk.status = "approved"
    ∧ docUnk.visibility = "internal"
    ∧ userDomain (lowerStr uCampus.email) = MSUIIT_DOMAIN
    ∧ canView docUnk uCampus 0 = true
    ∧ filterAdmits uCampus 0 docUnk = false
    ∧ repositorySignedGet (some docUnk) uCampus 0 = .forbidden
    ∧ repositoryDetailGet (some docUnk) uCampus 0 = .notFound := by decide

/-- C5 (amended): for a document whose visibility is missing or not one of
the four known classes, canView applies exactly the campus rule (allow iff
domain-affiliated, absent ownership/staff), but the repository list
predicate and the inline check of the repository single-item/signed-link
endpoints deny such a document for every principal — manifesting as 403 at
the signed-link endpoint, while the single-item detail endpoint answers 404
for every document anyway, its projection having dropped status. -/
theorem C5_unknown_visibility_paths (r : ResearchDoc) (u : User) (now : Int)
    (hunk : r.visibility = ""
      ∨ (lowerStr r.visibility ≠ "public" ∧ lowerStr r.visibility ≠ "campus"
          ∧ lowerStr r.visibility ≠ "private"
          ∧ lowerStr r.visibility ≠ "embargo")) :
    (isOwnerStaffOrAdviser r u = false →
      canView r u now = decide (userDomain (lowerStr u.email) = MSUIIT_DOMAIN))
    ∧ filterAdmits u now r = false
    ∧ repositoryAllowed r u now = false := by
  have hex : r.visibility ≠ "public" ∧ r.visibility ≠ "embargo"
      ∧ r.visibility ≠ "private" ∧ r.visibility ≠ "campus" := by
    rcases hunk with h | ⟨h1, h2, h3, h4⟩
    · rw [h]
      refine ⟨by decide, by decide, by decide, by decide⟩
    · exact ⟨fun hh => h1 (by rw [hh]; exact lowerStr_public),
        fun hh => h4 (by rw [hh]; exact lowerStr_embargo),
        fun hh => h3 (by rw [hh]; exact lowerStr_private),
        fun hh => h2 (by rw [hh]; exact lowerStr_campus)⟩
  refine ⟨fun hown => ?_,
    filterAdmits_unknown u now r hex.1 hex.2.1 hex.2.2.1 hex.2.2.2,
    repositoryAllowed_unknown r u now hex.1 hex.2.1 hex.2.2.1 hex.2.2.2⟩
  by_cases h0 : r.visibility = ""
  · exact canView_missing_vis r u now hown h0
  · rcases hunk with h | ⟨h1, h2, h3, h4⟩
    · exact absurd h h0
    · exact canView_unknown_vis r u now hown h0 h4 h1 h2 h3

/-- C5 witness: the per-path unknown-visibility behaviour instantiated on the
sample document with visibility "internal" and the campus principal. -/
theorem C5_unknown_visibility_paths_witness :
    docUnk.visibility = "internal"
    ∧ isOwnerStaffOrAdviser docUnk uCampus = false
    ∧ canView docUnk uCampus 0
        = decide (userDomain (lowerStr uCampus.email) = MSUIIT_DOMAIN)
    ∧ filterAdmits uCampus 0 docUnk = false := by
  have h := C5_unknown_visibility_paths docUnk uCampus 0 (Or.inr (by decide))
  exact ⟨rfl, by decide, h.1 (by decide), h.2.1⟩

/-! Claim C6 -/

/-- C6: for an approved document, a principal whose lowered identity equals
the document's lowered author or student, or whose id equals uploadedBy, or
whose nonempty lowered identity sameEmail-matches the adviser, is allowed by
canView at every time, whatever the visibility and embargo state. -/
theorem C6_ownership_overrides (r : ResearchDoc) (u : User) (now : Int)
    (hst : r.status = "approved")
    (hmatch : lowerStr u.email = lowerStr r.author
      ∨ lowerStr u.email = lowerStr r.student
      ∨ r.uploadedBy = u.id
      ∨ (lowerStr u.email ≠ ""
          ∧ sameEmail (lowerStr u.email) r.adviser = true)) :
    canView r u now = true := by
  have hown : isOwnerStaffOrAdviser r u = true := by
    rcases hmatch with h | h | h | ⟨h1, h2⟩
    · simp [isOwnerStaffOrAdviser, h]
    · simp [isOwnerStaffOrAdviser, h]
    · simp [isOwnerStaffOrAdviser, h]
    · simp [isOwnerStaffOrAdviser, h1, h2]
  exact canView_of_owner r u now hown

/-- C6 witness: the mixed-case author identity is allowed on the embargo
document at time 50, strictly before its embargoUntil of 100. -/
theorem C6_ownership_overrides_witness :
    docEmb.status = "approved"
    ∧ lowerStr uOwner.email = lowerStr docEmb.author
    ∧ docEmb.embargoUntil = some 100
    ∧ canView docEmb uOwner 50 = true := by
  exact ⟨rfl, by decide, rfl,
    C6_ownership_overrides docEmb uOwner 50 rfl (Or.inl (by decide))⟩

/-! Claim C7 -/

/-- C7: for a private document and a non-owner non-staff principal, canView
allows exactly when the lowered identity is a member of the lowered
allowedViewers list; in particular an empty allowedViewers list denies every
such principal. -/
theorem C7_private_allowlist (r : ResearchDoc) (u : User) (now : Int)
    (hown : isOwnerStaffOrAdviser r u = false)
    (hvis : r.visibility = "private") :
    (canView r u now = true
      ↔ lowerStr u.email ∈ r.allowedViewers.map lowerStr)
    ∧ (r.allowedViewers = [] → canView r u now = false) := by
  have h := canView_private r u now hown hvis
  refine ⟨?_, fun he => ?_⟩
  · rw [h]
    simp
  · rw [h, he]
    simp

/-- C7 witness: the mixed-case identity is admitted through the mixed-case
allow-list entry, and the empty allow-list denies the campus principal. -/
theorem C7_private_allowlist_witness :
    isOwnerStaffOrAdviser docPrivMixed uAlice = false
    ∧ docPrivMixed.allowedViewers = ["Alice@G.MSUIIT.EDU.PH"]
    ∧ canView docPrivMixed uAlice 0 = true
    ∧ docPriv.allowedViewers = []
    ∧ canView docPriv uCampus 0 = false := by
  refine ⟨by decide, rfl, ?_, rfl, ?_⟩
  · exact ((C7_private_allowlist docPrivMixed uAlice 0 (by decide) rfl).1).mpr
      (by decide)
  · exact (C7_private_allowlist docPriv uCampus 0 (by decide) rfl).2 rfl

/-! Claim C8 -/

/-- C8: a signed-link request whose bound fileId differs from the requested
document id never streams bytes, whatever the lookup result; and whenever
the request would otherwise reach the authorization step (document present,
approved, with a stored path), it is rejected with exactly the 403
"Signed link does not match file" — the binding is an exact string
comparison re-checked on the presented request. -/
theorem C8_capability_binding (find : Option ResearchDoc) (r : ResearchDoc)
    (reqId fid : String) (u : User) (now : Int) (bytes : Bool)
    (hne : fid ≠ reqId) :
    researchFileGet find reqId (.signed u fid) now bytes ≠ .stream
    ∧ (r.filePath ≠ "" → r.status = "approved" →
        researchFileGet (some r) reqId (.signed u fid) now bytes
          = .forbidden "Signed link does not match file") := by
  constructor
  · cases find with
    | none => simp [researchFileGet]
    | some r2 =>
      by_cases hcond : r2.filePath = "" ∨ r2.status ≠ "approved"
      · simp [researchFileGet, hcond]
      · simp [researchFileGet, hcond, hne]
  · intro hfp hst
    simp [researchFileGet, hfp, hst, hne]

/-- C8 witness: a capability bound to the embargo document presented against
the public document's id is rejected with 403. -/
theorem C8_capability_binding_witness :
    ("demb" : String) ≠ "dpub"
    ∧ docPub.filePath ≠ ""
    ∧ docPub.status = "approved"
    ∧ researchFileGet (some docPub) "dpub" (.signed uAlice "demb") 0 true
        = .forbidden "Signed link does not match file" := by
  refine ⟨by decide, by decide, rfl, ?_⟩
  exact (C8_capability_binding (some docPub) docPub "dpub" "demb" uAlice 0
    true (by decide)).2 (by decide) rfl

/-! Claim C9 -/

/-- C9 counterexample: for the same authorized caller, a request for an
absent document answers 404 with body "File not found" while a request for
an approved, viewable document whose bytes are missing on disk answers 404
with the different body "File not found on disk" — the three not-found
conditions do not share one response body. -/
theorem C9_counterexample :
    canView docPub uStaff 0 = true
    ∧ researchFileGet none "dpub" (.bearer uStaff) 0 false
        = .notFound "File not found"
    ∧ researchFileGet (some docPub) "dpub" (.bearer uStaff) 0 false
        = .notFound "File not found on disk"
    ∧ ("File not found on disk" : String) ≠ "File not found" := by decide

/-- C9 (amended): all three failing conditions answer with the 404
constructor, and the document-absent and document-not-approved cases share
the identical body "File not found"; but the bytes-missing-on-disk case
answers with the distinct body "File not found on disk", so only the first
two are indistinguishable to the caller. -/
theorem C9_notfound_merging (r r2 : ResearchDoc) (reqId : String) (u : User)
    (now : Int)
    (habs : r.status ≠ "approved")
    (hst2 : r2.status = "approved") (hfp2 : r2.filePath ≠ "")
    (hcv : canView r2 u now = true) :
    researchFileGet none reqId (.bearer u) now false
      = .notFound "File not found"
    ∧ researchFileGet (some r) reqId (.bearer u) now false
      = .notFound "File not found"
    ∧ researchFileGet (some r2) reqId (.bearer u) now false
      = .notFound "File not found on disk" := by
  refine ⟨rfl, ?_, ?_⟩
  · simp [researchFileGet, habs]
  · simp [researchFileGet, hst2, hfp2, hcv]

/-- C9 witness: the merged and distinct bodies instantiated on the pending
and the public sample documents for the staff principal. -/
theorem C9_notfound_merging_witness :
    docPending.status ≠ "approved"
    ∧ docPub.status = "approved"
    ∧ canView docPub uStaff 0 = true
    ∧ researchFileGet (some docPending) "x" (.bearer uStaff) 0 false
        = .notFound "File not found"
    ∧ researchFileGet (some docPub) "x" (.bearer uStaff) 0 false
        = .notFound "File not found on disk" := by
  have h := C9_notfound_merging docPending docPub "x" uStaff 0 (by decide) rfl
    (by decide) (by decide)
  exact ⟨by decide, rfl, by decide, h.2.1, h.2.2⟩

/-! Claim C10 -/

/-- C10: when the Authorization header carries a bearer token whose
verification throws (expired, malformed, or wrong signature) and the query
string carries a capability that verifies with a nonempty fileId and sub,
the resolver does not deny on the bearer failure: it falls through and the
request proceeds as the capability's subject, flagged as a signed-link
principal with the bound fileId recorded. -/
theorem C10_bearer_failure_falls_through (t s : String)
    (verifyBearer : String → Option BearerClaims)
    (verifySig : String → Option SigClaims) (p : SigClaims)
    (hb : verifyBearer t = none) (hs : verifySig s = some p)
    (hf : p.fileId ≠ "") (hsub : p.sub ≠ "") :
    authorizeOrSig (some t) verifyBearer (some s) verifySig
      = .proceed { id := p.sub, email := lowerStr p.email, role := p.role,
                   isCampus := p.isCampus, signedUrl := true,
                   sigFileId := p.fileId } := by
  simp [authorizeOrSig, sigPathResolve, hb, hs, hf, hsub]

/-- C10 witness: a bearer that always fails verification combined with a
valid sample capability resolves to the capability's subject. -/
theorem C10_bearer_failure_falls_through_witness :
    pSig.fileId ≠ ""
    ∧ pSig.sub ≠ ""
    ∧ authorizeOrSig (some "badtoken") (fun _ => none) (some "sig")
        (fun _ => some pSig)
      = .proceed { id := pSig.sub, email := lowerStr pSig.email,
                   role := pSig.role, isCampus := pSig.isCampus,
                   signedUrl := true, sigFileId := pSig.fileId } := by
  exact ⟨by decide, by decide,
    C10_bearer_failure_falls_through "badtoken" "sig" (fun _ => none)
      (fun _ => some pSig) pSig rfl rfl (by decide) (by decide)⟩

end RepoBack
